import Mathlib

/-!
# Verification of the mcp-marketplace client SDK request pipeline

Shallow embedding of `packages/marketplace-client/src/marketplace.ts`
(the `MarketplaceClient` class): header construction, the timeout wrapper
`fetchWithTimeout`, error parsing `parseErrorResponse`, and the public
operations (`listApps`, `getApp`, `searchApps`, `downloadApp`,
`getAppManifest`, `uploadApp`, `getAppHealth`, `deleteApp`,
`addAppToAccount`).

Modelling conventions:
* JavaScript strings are Lean `String`s; an optional field that may be
  absent or `undefined` is an `Option`.
* A JavaScript object of headers is a finite map `String → Option String`;
  object-spread merge (`{...a, ...b}`) is right-biased pointwise choice.
* A parsed JSON document is the inductive `JValue`; a response body that
  fails to parse as JSON (so `response.json()` rejects) is `none`.
* Property access `x.f` on a JavaScript value throws a `TypeError` when
  `x` is `null`, yields `undefined` on non-objects, and looks the key up
  on objects; this is `jsProp`, returning `Except Unit (Option JValue)`.
* JavaScript truthiness of an optional string (`if (cfg.apiKey)`) is
  `truthyStr`: present and non-empty.
* The per-call timeout timer is an explicit `TimerState` that is armed on
  entry and cleared by `clearTimer`, mirroring `setTimeout`/`clearTimeout`.
* The opaque transport (`fetch`) is quantified over: a `FetchOutcome` is
  either a settled `HttpResponse` or a rejection carrying an error name
  (the internal abort surfaces as name `"AbortError"`).
-/

namespace Marketplace

/-- A parsed JSON value. Object fields model the result of `JSON.parse`,
so keys are taken to be unique (duplicates are already resolved). -/
inductive JValue where
  | jnull
  | jbool (b : Bool)
  | jnum (n : Int)
  | jstr (s : String)
  | jarr (xs : List JValue)
  | jobj (fields : List (String × JValue))

/-- Field lookup in a parsed JSON object: `none` means the key is absent
(JavaScript `undefined`). -/
def jobjGet (fields : List (String × JValue)) (k : String) : Option JValue :=
  (fields.find? (fun p => p.1 == k)).map (fun p => p.2)

/-- JavaScript property access `v[k]`: throws `TypeError` on `null`,
gives `undefined` on primitives and arrays (for the keys used here), and
looks the key up on objects. -/
def jsProp : JValue → String → Except Unit (Option JValue)
  | .jnull, _ => .error ()
  | .jobj fields, k => .ok (jobjGet fields k)
  | _, _ => .ok none

mutual

/-- JavaScript `String(v)` coercion as applied by the `Error` constructor
to its message argument: strings pass through, numbers and booleans
print, arrays join their elements with commas, plain objects print as
`[object Object]`. -/
def jsToString : JValue → String
  | .jnull => "null"
  | .jbool b => if b then "true" else "false"
  | .jnum n => toString n
  | .jstr s => s
  | .jarr xs => jsArrToString xs
  | .jobj _ => "[object Object]"

/-- `Array.prototype.toString` = `join(",")`, with `null` elements
printing as the empty string. -/
def jsArrToString : List JValue → String
  | [] => ""
  | [.jnull] => ""
  | [v] => jsToString v
  | .jnull :: vs => "," ++ jsArrToString vs
  | v :: vs => jsToString v ++ "," ++ jsArrToString vs

end

/-! ## Client configuration -/

/-- `MarketplaceClientConfig`: the constructor argument. `getUserId` is a
user-identity accessor; since a JavaScript function typed `() => string`
can still return `undefined` at runtime, its result is modelled as
`Option String` (`none` = nothing/`undefined`). `none` for the field
itself means the key is absent (or explicitly `undefined`). -/
structure MarketplaceClientConfig where
  baseUrl : String
  apiKey : Option String := none
  token : Option String := none
  timeout : Option Nat := none
  getUserId : Option (Unit → Option String) := none

/-- The configuration held by a constructed client, after the constructor
spread `{ timeout: 30000, getUserId: () => 'dev', ...config }`. -/
structure ResolvedConfig where
  baseUrl : String
  apiKey : Option String
  token : Option String
  timeout : Nat
  getUserId : Option (Unit → Option String)

/-- The `MarketplaceClient` constructor: defaults `timeout` to 30000 and
`getUserId` to `() => 'dev'`, with caller-supplied keys overriding. -/
def mkClient (c : MarketplaceClientConfig) : ResolvedConfig :=
  { baseUrl := c.baseUrl
    apiKey := c.apiKey
    token := c.token
    timeout := c.timeout.getD 30000
    getUserId :=
      match c.getUserId with
      | some f => some f
      | none => some (fun _ => some "dev") }

/-- JavaScript truthiness of an optional string: `undefined`, `null` and
`""` are falsy. -/
def truthyStr : Option String → Bool
  | none => false
  | some s => !s.isEmpty

/-! ## Header construction -/

/-- A JavaScript header object as a finite map. -/
def Headers := String → Option String

/-- The empty object `{}`. -/
def emptyHeaders : Headers := fun _ => none

/-- Property assignment `h[k] = v`. -/
def hset (h : Headers) (k v : String) : Headers :=
  fun x => if x = k then some v else h x

/-- Object-spread merge `{...a, ...b}`: keys of `b` win. -/
def hmerge (a b : Headers) : Headers :=
  fun k => match b k with
    | some v => some v
    | none => a k

/-- `this.config.getUserId?.() ?? 'dev'` (lines 125 and 158): optional
call on the accessor, then nullish-coalescing to `'dev'`. Note that
`??` replaces only `undefined`/`null`, not the empty string. -/
def getUserIdValue (cfg : ResolvedConfig) : String :=
  (cfg.getUserId.bind (fun f => f ())).getD "dev"

/-- `getHeaders` (lines 119-136): JSON content type, user id, then at
most one authentication header chosen by truthiness precedence. -/
def getHeaders (cfg : ResolvedConfig) : Headers :=
  let h := hset (hset emptyHeaders "Content-Type" "application/json")
    "x-user-id" (getUserIdValue cfg)
  if truthyStr cfg.apiKey then
    hset h "x-api-key" (cfg.apiKey.getD "")
  else if truthyStr cfg.token then
    hset h "Authorization" ("Bearer " ++ cfg.token.getD "")
  else
    h

/-- The FormData branch of `fetchWithTimeout` (lines 156-168): the same
headers as `getHeaders` except that no `Content-Type` is set. -/
def formDataHeaders (cfg : ResolvedConfig) : Headers :=
  let h := hset emptyHeaders "x-user-id" (getUserIdValue cfg)
  if truthyStr cfg.apiKey then
    hset h "x-api-key" (cfg.apiKey.getD "")
  else if truthyStr cfg.token then
    hset h "Authorization" ("Bearer " ++ cfg.token.getD "")
  else
    h

/-- The `RequestInit` options the SDK itself passes to
`fetchWithTimeout`: an optional method, optional caller headers, and
whether the body is `FormData`. -/
structure RequestOptions where
  method : Option String := none
  headers : Option Headers := none
  bodyIsFormData : Bool := false

/-- Final headers sent by `fetchWithTimeout` (lines 150-178): the
FormData or JSON defaults, merged under any caller-supplied headers
(`{...headers, ...options.headers}`, caller keys win). -/
def buildFinalHeaders (cfg : ResolvedConfig) (opts : RequestOptions) : Headers :=
  let base := if opts.bodyIsFormData then formDataHeaders cfg else getHeaders cfg
  match opts.headers with
  | some oh => hmerge base oh
  | none => base

/-! ## Errors, responses, and the timeout wrapper -/

/-- `MarketplaceError` (lines 67-83): message, optional HTTP status,
optional machine-readable code. The `code` slot is assigned from the
parsed body without coercion, so it holds a `JValue` when present. -/
structure MarketplaceError where
  message : String
  statusCode : Option Nat := none
  code : Option JValue := none

/-- An HTTP response as the SDK observes it: status, the JSON parse of
the body (`none` when `response.json()` would reject), and the raw body
bytes returned by `response.blob()`. -/
structure HttpResponse where
  status : Nat
  body : Option JValue := none
  blob : String := ""

/-- `Response.ok` per the fetch specification: status in the 2xx range. -/
def respOk (r : HttpResponse) : Bool :=
  200 ≤ r.status && r.status ≤ 299

/-- How the awaited `fetch` settles: a response, or a rejection carrying
an error name and message. The only abort source is the internal timeout
controller (the spread `{...options, signal: controller.signal}` always
installs it), so the timeout firing first is exactly a rejection named
`"AbortError"`. -/
inductive FetchOutcome where
  | ok (resp : HttpResponse)
  | thrown (name msg : String)

/-- The per-call timer armed by `setTimeout` and disarmed by
`clearTimeout`. -/
structure TimerState where
  armed : Bool

/-- `setTimeout(() => controller.abort(), this.config.timeout)`. -/
def armTimer : TimerState := ⟨true⟩

/-- `clearTimeout(timeoutId)`. -/
def clearTimer (_t : TimerState) : TimerState := ⟨false⟩

/-- How `fetchWithTimeout` settles: the response, a structured
`MarketplaceError` it threw itself, or a foreign error rethrown as-is. -/
inductive FetchResult where
  | ok (resp : HttpResponse)
  | marketplaceError (e : MarketplaceError)
  | passthrough (name msg : String)

/-- The observable outcome of one `fetchWithTimeout` call: how it
settled, the headers it sent, and the final timer state. -/
structure FetchRun where
  result : FetchResult
  sentHeaders : Headers
  timer : TimerState

/-- `fetchWithTimeout` (lines 145-194): arm the timer, build the final
headers, call `fetch`; on success clear the timer and return the
response; on a rejection clear the timer and either convert an
`AbortError` into `MarketplaceError("Request timeout", 408)` or rethrow
the error unchanged. -/
def fetchWithTimeout (cfg : ResolvedConfig) (opts : RequestOptions)
    (outcome : FetchOutcome) : FetchRun :=
  let t0 := armTimer
  let hs := buildFinalHeaders cfg opts
  match outcome with
  | .ok resp =>
    let t1 := clearTimer t0
    { result := .ok resp, sentHeaders := hs, timer := t1 }
  | .thrown name msg =>
    let t1 := clearTimer t0
    if name = "AbortError" then
      { result := .marketplaceError
          { message := "Request timeout", statusCode := some 408, code := none }
        sentHeaders := hs, timer := t1 }
    else
      { result := .passthrough name msg, sentHeaders := hs, timer := t1 }

/-- `parseErrorResponse` (lines 201-212): try to parse the body as JSON
and read `errorData.error ?? fallbackMessage`, the status, and
`errorData.code`; any throw inside the `try` (body not JSON, or property
access on a `null` body) falls back to `MarketplaceError(fallbackMessage,
response.status)`. A present-but-`null` `error` field also falls back,
because `??` treats `null` as nullish; a non-string `error` value is
coerced by the `Error` constructor. -/
def parseErrorResponse (resp : HttpResponse) (fallbackMessage : String) :
    MarketplaceError :=
  match resp.body with
  | none => { message := fallbackMessage, statusCode := some resp.status, code := none }
  | some errorData =>
    match jsProp errorData "error", jsProp errorData "code" with
    | .ok errField, .ok codeField =>
      { message :=
          match errField with
          | none => fallbackMessage
          | some .jnull => fallbackMessage
          | some v => jsToString v
        statusCode := some resp.status
        code := codeField }
    | _, _ => { message := fallbackMessage, statusCode := some resp.status, code := none }

/-! ## URL encoding -/

/-- Upper-case hexadecimal digit. -/
def hexDigitChar (n : Nat) : Char :=
  if n < 10 then Char.ofNat (48 + n) else Char.ofNat (55 + n)

/-- Two-digit upper-case hexadecimal rendering of a byte. -/
def hexByte (n : Nat) : String :=
  String.mk [hexDigitChar (n / 16), hexDigitChar (n % 16)]

/-- UTF-8 bytes of a Unicode scalar value. -/
def utf8Bytes (c : Char) : List Nat :=
  let n := c.toNat
  if n < 0x80 then [n]
  else if n < 0x800 then
    [0xC0 + n / 0x40, 0x80 + n % 0x40]
  else if n < 0x10000 then
    [0xE0 + n / 0x1000, 0x80 + n / 0x40 % 0x40, 0x80 + n % 0x40]
  else
    [0xF0 + n / 0x40000, 0x80 + n / 0x1000 % 0x40, 0x80 + n / 0x40 % 0x40,
      0x80 + n % 0x40]

/-- The `uriUnescaped` set of ECMAScript `encodeURIComponent`: ASCII
letters, digits, and `- _ . ! ~ * ( )` together with the apostrophe
(code 39). -/
def isURIUnescaped (c : Char) : Bool :=
  let n := c.toNat
  (65 ≤ n && n ≤ 90) || (97 ≤ n && n ≤ 122) || (48 ≤ n && n ≤ 57) ||
    n == 45 || n == 95 || n == 46 || n == 33 || n == 126 || n == 42 ||
    n == 39 || n == 40 || n == 41

/-- One character of `encodeURIComponent` output. -/
def encodeURIChar (c : Char) : String :=
  if isURIUnescaped c then String.singleton c
  else String.join ((utf8Bytes c).map (fun b => "%" ++ hexByte b))

/-- ECMAScript `encodeURIComponent`: unescaped characters pass through,
every other character contributes a `%XX` triple per UTF-8 byte. -/
def encodeURIComponent (s : String) : String :=
  String.join (s.data.map encodeURIChar)

/-- The characters `application/x-www-form-urlencoded` serialization
keeps verbatim: ASCII alphanumerics and `* - . _`. -/
def isFormSafe (c : Char) : Bool :=
  let n := c.toNat
  (65 ≤ n && n ≤ 90) || (97 ≤ n && n ≤ 122) || (48 ≤ n && n ≤ 57) ||
    n == 42 || n == 45 || n == 46 || n == 95

/-- One character of `URLSearchParams` serialization: space becomes `+`,
safe characters pass through, the rest percent-encode per UTF-8 byte. -/
def formEncodeChar (c : Char) : String :=
  if c.toNat == 32 then "+"
  else if isFormSafe c then String.singleton c
  else String.join ((utf8Bytes c).map (fun b => "%" ++ hexByte b))

/-- `application/x-www-form-urlencoded` serialization of one string. -/
def formEncode (s : String) : String :=
  String.join (s.data.map formEncodeChar)

/-- `URLSearchParams.toString()`: each appended `(key, value)` pair
serializes to `key=value` (both form-encoded), joined by `&`. -/
def serializeParams (ps : List (String × String)) : String :=
  String.intercalate "&" (ps.map (fun p => formEncode p.1 ++ "=" ++ formEncode p.2))

/-! ## Filters and outbound requests -/

/-- The `visibility` enum `'private' | 'global'`. -/
inductive Visibility where
  | vprivate
  | vglobal
  deriving Repr, DecidableEq

/-- The wire string of a visibility value. -/
def Visibility.str : Visibility → String
  | .vprivate => "private"
  | .vglobal => "global"

/-- `AppFilters` (lines 22-29): all fields optional. -/
structure AppFilters where
  search : Option String := none
  category : Option String := none
  visibility : Option Visibility := none

/-- The `URLSearchParams` built by `listApps` (lines 221-223): `search`
and `category` are appended when truthy; nothing else is appended. -/
def listAppsParams (filters : Option AppFilters) : List (String × String) :=
  let p0 : List (String × String) := []
  let s := filters.bind AppFilters.search
  let p1 := if truthyStr s then p0 ++ [("search", s.getD "")] else p0
  let c := filters.bind AppFilters.category
  let p2 := if truthyStr c then p1 ++ [("category", c.getD "")] else p1
  p2

/-- `{ ...filters, search: query }` as built by `searchApps` (line 264):
the explicit query overrides any `search` in the filters. -/
def spreadWithSearch (filters : Option AppFilters) (query : String) : AppFilters :=
  { search := some query
    category := filters.bind AppFilters.category
    visibility := filters.bind AppFilters.visibility }

/-- The kind of body attached to an outbound request. -/
inductive RequestBody where
  | noBody
  | formData (fields : List (String × String))

/-- An outbound HTTP request as the SDK constructs it. -/
structure OutboundRequest where
  url : String
  method : String
  body : RequestBody
  headers : Headers

/-- The file argument of `uploadApp`: a `File` (with its own name), a
`Blob`, or a Node.js `Buffer`. -/
inductive UploadFile where
  | file (name : String)
  | blob
  | buffer

/-- The form field name the uploaded package is stored under
(lines 321-329): a `File` keeps its name, a `Blob` or `Buffer` is
appended as `app.zip`. -/
def uploadFileName : UploadFile → String
  | .file n => n
  | .blob => "app.zip"
  | .buffer => "app.zip"

/-- Request of `listApps` (lines 220-227): GET on
`/api/apps?<params>`. -/
def listAppsRequest (cfg : ResolvedConfig) (filters : Option AppFilters) :
    OutboundRequest :=
  { url := cfg.baseUrl ++ "/api/apps?" ++ serializeParams (listAppsParams filters)
    method := "GET"
    body := .noBody
    headers := buildFinalHeaders cfg {} }

/-- Request of `searchApps` (lines 263-265): delegate to `listApps` with
the query spread into the filters. -/
def searchAppsRequest (cfg : ResolvedConfig) (query : String)
    (filters : Option AppFilters) : OutboundRequest :=
  listAppsRequest cfg (some (spreadWithSearch filters query))

/-- Request of `getApp` (lines 244-246): GET on
`/api/apps/<encoded id>`. -/
def getAppRequest (cfg : ResolvedConfig) (appId : String) : OutboundRequest :=
  { url := cfg.baseUrl ++ "/api/apps/" ++ encodeURIComponent appId
    method := "GET"
    body := .noBody
    headers := buildFinalHeaders cfg {} }

/-- Request of `downloadApp` (lines 274-279): GET on
`/api/apps/<encoded id>/download`, with `?version=<encoded version>`
when a version is given. -/
def downloadAppRequest (cfg : ResolvedConfig) (appId : String)
    (version : Option String) : OutboundRequest :=
  { url :=
      match version with
      | some v => cfg.baseUrl ++ "/api/apps/" ++ encodeURIComponent appId ++
          "/download?version=" ++ encodeURIComponent v
      | none => cfg.baseUrl ++ "/api/apps/" ++ encodeURIComponent appId ++ "/download"
    method := "GET"
    body := .noBody
    headers := buildFinalHeaders cfg {} }

/-- Request of `getAppManifest` (lines 295-297). -/
def getAppManifestRequest (cfg : ResolvedConfig) (appId : String) : OutboundRequest :=
  { url := cfg.baseUrl ++ "/api/apps/" ++ encodeURIComponent appId ++ "/manifest"
    method := "GET"
    body := .noBody
    headers := buildFinalHeaders cfg {} }

/-- Request of `uploadApp` (lines 314-339): POST of a multipart form
(`package` then `visibility`) to `/api/apps/upload`; the `FormData` body
routes header construction through the no-content-type branch. -/
def uploadAppRequest (cfg : ResolvedConfig) (file : UploadFile)
    (visibility : Visibility) : OutboundRequest :=
  { url := cfg.baseUrl ++ "/api/apps/upload"
    method := "POST"
    body := .formData [("package", uploadFileName file), ("visibility", visibility.str)]
    headers := buildFinalHeaders cfg { method := some "POST", bodyIsFormData := true } }

/-- Request of `getAppHealth` (lines 356-358). -/
def getAppHealthRequest (cfg : ResolvedConfig) (appId : String) : OutboundRequest :=
  { url := cfg.baseUrl ++ "/api/apps/" ++ encodeURIComponent appId ++ "/health"
    method := "GET"
    body := .noBody
    headers := buildFinalHeaders cfg {} }

/-- Request of `deleteApp` (lines 374-379): DELETE on
`/api/apps/<encoded id>`. -/
def deleteAppRequest (cfg : ResolvedConfig) (appId : String) : OutboundRequest :=
  { url := cfg.baseUrl ++ "/api/apps/" ++ encodeURIComponent appId
    method := "DELETE"
    body := .noBody
    headers := buildFinalHeaders cfg { method := some "DELETE" } }

/-- Request of `addAppToAccount` (lines 394-399): POST on
`/api/apps/<encoded id>/add-to-account`. -/
def addAppToAccountRequest (cfg : ResolvedConfig) (appId : String) : OutboundRequest :=
  { url := cfg.baseUrl ++ "/api/apps/" ++ encodeURIComponent appId ++ "/add-to-account"
    method := "POST"
    body := .noBody
    headers := buildFinalHeaders cfg { method := some "POST" } }

/-! ## Operation runners

Each runner is the body of one public `async` method, quantified over
how the transport settles. The result distinguishes a resolved value, a
thrown `MarketplaceError`, and any other thrown JavaScript error
(`TypeError` from a property access on `null`, `SyntaxError` from
`response.json()` on a non-JSON success body, or a transport error
rethrown by `fetchWithTimeout`), which propagates to the caller as-is. -/

/-- How one public operation settles. -/
inductive OpResult (α : Type) where
  | success (v : α)
  | failure (e : MarketplaceError)
  | jsError (name : String)

/-- `x ?? d` for a JavaScript value that may be absent or `null`. -/
def nullishGetD (x : Option JValue) (d : JValue) : JValue :=
  match x with
  | none => d
  | some .jnull => d
  | some v => v

/-- `listApps` (lines 220-235): on 2xx, `data.apps ?? []`; on non-2xx,
throw `parseErrorResponse(response, 'Failed to fetch apps')`. -/
def runListApps (cfg : ResolvedConfig) (filters : Option AppFilters)
    (outcome : FetchOutcome) : OpResult JValue :=
  match (fetchWithTimeout cfg {} outcome).result with
  | .marketplaceError e => .failure e
  | .passthrough name _ => .jsError name
  | .ok resp =>
    if respOk resp then
      match resp.body with
      | none => .jsError "SyntaxError"
      | some data =>
        match jsProp data "apps" with
        | .error _ => .jsError "TypeError"
        | .ok appsField => .success (nullishGetD appsField (.jarr []))
    else .failure (parseErrorResponse resp "Failed to fetch apps")

/-- `searchApps` (lines 263-265): literally
`this.listApps({ ...filters, search: query })`. -/
def runSearchApps (cfg : ResolvedConfig) (query : String)
    (filters : Option AppFilters) (outcome : FetchOutcome) : OpResult JValue :=
  runListApps cfg (some (spreadWithSearch filters query)) outcome

/-- `getApp` (lines 243-254): on 2xx, resolve with `data.app` (which is
`undefined`, i.e. `none`, when the field is absent); on non-2xx, throw
`parseErrorResponse(response, 'Failed to fetch app: ' + appId)`. -/
def runGetApp (cfg : ResolvedConfig) (appId : String)
    (outcome : FetchOutcome) : OpResult (Option JValue) :=
  match (fetchWithTimeout cfg {} outcome).result with
  | .marketplaceError e => .failure e
  | .passthrough name _ => .jsError name
  | .ok resp =>
    if respOk resp then
      match resp.body with
      | none => .jsError "SyntaxError"
      | some data =>
        match jsProp data "app" with
        | .error _ => .jsError "TypeError"
        | .ok appField => .success appField
    else .failure (parseErrorResponse resp ("Failed to fetch app: " ++ appId))

/-- `downloadApp` (lines 274-286): on 2xx resolve with the raw blob;
on non-2xx throw with fallback `'Failed to download app: ' + appId`. -/
def runDownloadApp (cfg : ResolvedConfig) (appId : String)
    (version : Option String) (outcome : FetchOutcome) : OpResult String :=
  match (fetchWithTimeout cfg {} outcome).result with
  | .marketplaceError e => .failure e
  | .passthrough name _ => .jsError name
  | .ok resp =>
    if respOk resp then .success resp.blob
    else .failure (parseErrorResponse resp ("Failed to download app: " ++ appId))

/-- `getAppManifest` (lines 294-305): on 2xx resolve with
`data.manifest`; fallback message `'Failed to fetch manifest: ' + appId`. -/
def runGetAppManifest (cfg : ResolvedConfig) (appId : String)
    (outcome : FetchOutcome) : OpResult (Option JValue) :=
  match (fetchWithTimeout cfg {} outcome).result with
  | .marketplaceError e => .failure e
  | .passthrough name _ => .jsError name
  | .ok resp =>
    if respOk resp then
      match resp.body with
      | none => .jsError "SyntaxError"
      | some data =>
        match jsProp data "manifest" with
        | .error _ => .jsError "TypeError"
        | .ok manifestField => .success manifestField
    else .failure (parseErrorResponse resp ("Failed to fetch manifest: " ++ appId))

/-- `uploadApp` (lines 314-347): POST the multipart form; on 2xx resolve
with `data.app`; fallback message `'Upload failed'`. -/
def runUploadApp (cfg : ResolvedConfig) (file : UploadFile)
    (visibility : Visibility) (outcome : FetchOutcome) : OpResult (Option JValue) :=
  match (fetchWithTimeout cfg { method := some "POST", bodyIsFormData := true }
      outcome).result with
  | .marketplaceError e => .failure e
  | .passthrough name _ => .jsError name
  | .ok resp =>
    if respOk resp then
      match resp.body with
      | none => .jsError "SyntaxError"
      | some data =>
        match jsProp data "app" with
        | .error _ => .jsError "TypeError"
        | .ok appField => .success appField
    else .failure (parseErrorResponse resp "Upload failed")

/-- `getAppHealth` (lines 355-365): on 2xx resolve with the parsed body
itself; fallback message `'Health check failed'`. -/
def runGetAppHealth (cfg : ResolvedConfig) (appId : String)
    (outcome : FetchOutcome) : OpResult JValue :=
  match (fetchWithTimeout cfg {} outcome).result with
  | .marketplaceError e => .failure e
  | .passthrough name _ => .jsError name
  | .ok resp =>
    if respOk resp then
      match resp.body with
      | none => .jsError "SyntaxError"
      | some data => .success data
    else .failure (parseErrorResponse resp "Health check failed")

/-- `deleteApp` (lines 373-384): on 2xx resolve with no value (the body
is not read); fallback message `'Failed to delete app'`. -/
def runDeleteApp (cfg : ResolvedConfig) (appId : String)
    (outcome : FetchOutcome) : OpResult Unit :=
  match (fetchWithTimeout cfg { method := some "DELETE" } outcome).result with
  | .marketplaceError e => .failure e
  | .passthrough name _ => .jsError name
  | .ok resp =>
    if respOk resp then .success ()
    else .failure (parseErrorResponse resp "Failed to delete app")

/-- `addAppToAccount` (lines 393-406): on 2xx resolve with the parsed
body itself; fallback message `'Failed to add app to account'`. -/
def runAddAppToAccount (cfg : ResolvedConfig) (appId : String)
    (outcome : FetchOutcome) : OpResult JValue :=
  match (fetchWithTimeout cfg { method := some "POST" } outcome).result with
  | .marketplaceError e => .failure e
  | .passthrough name _ => .jsError name
  | .ok resp =>
    if respOk resp then
      match resp.body with
      | none => .jsError "SyntaxError"
      | some data => .success data
    else .failure (parseErrorResponse resp "Failed to add app to account")

/-! ## Claim theorems -/

/-- A sample resolved configuration with both credentials set, used by
concrete instantiations. -/
def cfgBoth : ResolvedConfig :=
  { baseUrl := "http://localhost:3002"
    apiKey := some "my-key"
    token := some "my-token"
    timeout := 30000
    getUserId := some (fun _ => some "dev") }

/-- **C1.** For every client configuration and every request whose caller
supplies no explicit headers (as all SDK operations do), exactly one
authentication header is attached, on the JSON path and the multipart
path alike: `x-api-key` when a non-empty API key is configured (even if
a token is also configured), otherwise `Authorization: Bearer` when a
non-empty token is configured, otherwise neither. -/
theorem exactly_one_auth_header (cfg : ResolvedConfig) (opts : RequestOptions)
    (hno : opts.headers = none) :
    (∀ k, cfg.apiKey = some k → k ≠ "" →
      buildFinalHeaders cfg opts "x-api-key" = some k ∧
      buildFinalHeaders cfg opts "Authorization" = none) ∧
    (truthyStr cfg.apiKey = false →
      ∀ t, cfg.token = some t → t ≠ "" →
        buildFinalHeaders cfg opts "Authorization" = some ("Bearer " ++ t) ∧
        buildFinalHeaders cfg opts "x-api-key" = none) ∧
    (truthyStr cfg.apiKey = false → truthyStr cfg.token = false →
      buildFinalHeaders cfg opts "x-api-key" = none ∧
      buildFinalHeaders cfg opts "Authorization" = none) := by
  have hb : buildFinalHeaders cfg opts =
      if opts.bodyIsFormData then formDataHeaders cfg else getHeaders cfg := by
    simp [buildFinalHeaders, hno]
  refine ⟨?_, ?_, ?_⟩
  · intro k hk hne
    have hkE : k.isEmpty = false := by
      simp [Bool.eq_false_iff, String.isEmpty_iff, hne]
    rw [hb]
    cases opts.bodyIsFormData <;>
      simp [getHeaders, formDataHeaders, truthyStr, hk, hkE, hset, emptyHeaders]
  · intro hfk t htk hne
    have htE : t.isEmpty = false := by
      simp [Bool.eq_false_iff, String.isEmpty_iff, hne]
    have ht2 : truthyStr (some t) = true := by
      simp [truthyStr, htE]
    rw [hb]
    cases opts.bodyIsFormData <;>
      simp [getHeaders, formDataHeaders, hfk, ht2, htk, hset, emptyHeaders]
  · intro hfk hft
    rw [hb]
    cases opts.bodyIsFormData <;>
      simp [getHeaders, formDataHeaders, hfk, hft, hset, emptyHeaders]

/-- Witness for C1: with both an API key and a token configured, exactly
the API-key header is attached. -/
theorem exactly_one_auth_header_witness :
    buildFinalHeaders cfgBoth {} "x-api-key" = some "my-key" ∧
    buildFinalHeaders cfgBoth {} "Authorization" = none :=
  (exactly_one_auth_header cfgBoth {} rfl).1 "my-key" rfl (by decide)

/-- **C2.** If the timeout fires before the transport returns (the
`fetch` call rejects with `AbortError`, the only abort source being the
internal timeout controller), the call fails with a structured error
with message `"Request timeout"` and status 408 — propagated unchanged
by every operation — and the timer is disarmed on every exit path of
`fetchWithTimeout` (success, thrown transport error, or timeout). -/
theorem timeout_408_and_timer_always_cleared (cfg : ResolvedConfig)
    (opts : RequestOptions) (msg appId query : String) (version : Option String)
    (file : UploadFile) (vis : Visibility) (filters : Option AppFilters)
    (outcome : FetchOutcome) :
    (fetchWithTimeout cfg opts (.thrown "AbortError" msg)).result =
      .marketplaceError
        { message := "Request timeout", statusCode := some 408, code := none } ∧
    runListApps cfg filters (.thrown "AbortError" msg) =
      .failure { message := "Request timeout", statusCode := some 408, code := none } ∧
    runSearchApps cfg query filters (.thrown "AbortError" msg) =
      .failure { message := "Request timeout", statusCode := some 408, code := none } ∧
    runGetApp cfg appId (.thrown "AbortError" msg) =
      .failure { message := "Request timeout", statusCode := some 408, code := none } ∧
    runDownloadApp cfg appId version (.thrown "AbortError" msg) =
      .failure { message := "Request timeout", statusCode := some 408, code := none } ∧
    runGetAppManifest cfg appId (.thrown "AbortError" msg) =
      .failure { message := "Request timeout", statusCode := some 408, code := none } ∧
    runUploadApp cfg file vis (.thrown "AbortError" msg) =
      .failure { message := "Request timeout", statusCode := some 408, code := none } ∧
    runGetAppHealth cfg appId (.thrown "AbortError" msg) =
      .failure { message := "Request timeout", statusCode := some 408, code := none } ∧
    runDeleteApp cfg appId (.thrown "AbortError" msg) =
      .failure { message := "Request timeout", statusCode := some 408, code := none } ∧
    runAddAppToAccount cfg appId (.thrown "AbortError" msg) =
      .failure { message := "Request timeout", statusCode := some 408, code := none } ∧
    (fetchWithTimeout cfg opts outcome).timer.armed = false := by
  refine ⟨?_, ?_, ?_, ?_, ?_, ?_, ?_, ?_, ?_, ?_, ?_⟩
  · simp [fetchWithTimeout]
  · simp [runListApps, fetchWithTimeout]
  · simp [runSearchApps, runListApps, fetchWithTimeout]
  · simp [runGetApp, fetchWithTimeout]
  · simp [runDownloadApp, fetchWithTimeout]
  · simp [runGetAppManifest, fetchWithTimeout]
  · simp [runUploadApp, fetchWithTimeout]
  · simp [runGetAppHealth, fetchWithTimeout]
  · simp [runDeleteApp, fetchWithTimeout]
  · simp [runAddAppToAccount, fetchWithTimeout]
  · cases outcome with
    | ok resp => simp [fetchWithTimeout, clearTimer]
    | thrown name m =>
      by_cases h : name = "AbortError" <;> simp [fetchWithTimeout, clearTimer, h]

/-- A concrete 403 response with a well-formed JSON error body, used by
concrete instantiations. -/
def resp403 : HttpResponse :=
  { status := 403
    body := some (.jobj [("error", .jstr "Not authorized"), ("code", .jstr "FORBIDDEN")]) }

/-- **C3.** Every operation maps a non-2xx response to a thrown
`MarketplaceError` built by `parseErrorResponse` with that operation's
fallback message; `parseErrorResponse` takes the body's `error` field as
message when the body is a JSON object with a (non-null) string `error`
field, falls back otherwise (including when the body is not JSON),
always carries the response's status, and carries the body's `code`
field when present. -/
theorem non2xx_structured_error (cfg : ResolvedConfig) (appId query : String)
    (version : Option String) (file : UploadFile) (vis : Visibility)
    (filters : Option AppFilters) (resp : HttpResponse) (fb : String)
    (hfail : respOk resp = false) :
    runListApps cfg filters (.ok resp) =
      .failure (parseErrorResponse resp "Failed to fetch apps") ∧
    runSearchApps cfg query filters (.ok resp) =
      .failure (parseErrorResponse resp "Failed to fetch apps") ∧
    runGetApp cfg appId (.ok resp) =
      .failure (parseErrorResponse resp ("Failed to fetch app: " ++ appId)) ∧
    runDownloadApp cfg appId version (.ok resp) =
      .failure (parseErrorResponse resp ("Failed to download app: " ++ appId)) ∧
    runGetAppManifest cfg appId (.ok resp) =
      .failure (parseErrorResponse resp ("Failed to fetch manifest: " ++ appId)) ∧
    runUploadApp cfg file vis (.ok resp) =
      .failure (parseErrorResponse resp "Upload failed") ∧
    runGetAppHealth cfg appId (.ok resp) =
      .failure (parseErrorResponse resp "Health check failed") ∧
    runDeleteApp cfg appId (.ok resp) =
      .failure (parseErrorResponse resp "Failed to delete app") ∧
    runAddAppToAccount cfg appId (.ok resp) =
      .failure (parseErrorResponse resp "Failed to add app to account") ∧
    (parseErrorResponse resp fb).statusCode = some resp.status ∧
    (∀ fields s, resp.body = some (.jobj fields) →
      jobjGet fields "error" = some (.jstr s) →
      (parseErrorResponse resp fb).message = s) ∧
    (∀ fields, resp.body = some (.jobj fields) →
      jobjGet fields "error" = none →
      (parseErrorResponse resp fb).message = fb) ∧
    (resp.body = none →
      (parseErrorResponse resp fb).message = fb ∧
      (parseErrorResponse resp fb).code = none) ∧
    (∀ fields c, resp.body = some (.jobj fields) →
      jobjGet fields "code" = some c →
      (parseErrorResponse resp fb).code = some c) := by
  refine ⟨?_, ?_, ?_, ?_, ?_, ?_, ?_, ?_, ?_, ?_, ?_, ?_, ?_, ?_⟩
  · simp [runListApps, fetchWithTimeout, hfail]
  · simp [runSearchApps, runListApps, fetchWithTimeout, hfail]
  · simp [runGetApp, fetchWithTimeout, hfail]
  · simp [runDownloadApp, fetchWithTimeout, hfail]
  · simp [runGetAppManifest, fetchWithTimeout, hfail]
  · simp [runUploadApp, fetchWithTimeout, hfail]
  · simp [runGetAppHealth, fetchWithTimeout, hfail]
  · simp [runDeleteApp, fetchWithTimeout, hfail]
  · simp [runAddAppToAccount, fetchWithTimeout, hfail]
  · rcases hb : resp.body with _ | v
    · simp [parseErrorResponse, hb]
    · cases v <;> simp [parseErrorResponse, hb, jsProp]
  · intro fields s hb hget
    simp [parseErrorResponse, hb, jsProp, hget, jsToString]
  · intro fields hb hget
    simp [parseErrorResponse, hb, jsProp, hget]
  · intro hb
    simp [parseErrorResponse, hb]
  · intro fields c hb hget
    simp [parseErrorResponse, hb, jsProp, hget]

/-- Witness for C3: a delete call answered 403 with body
`{"error": "Not authorized", "code": "FORBIDDEN"}` fails with message
`Not authorized`, status 403 and code `FORBIDDEN`. -/
theorem non2xx_structured_error_witness :
    runDeleteApp cfgBoth "app1" (.ok resp403) =
      .failure (parseErrorResponse resp403 "Failed to delete app") ∧
    (parseErrorResponse resp403 "Failed to delete app").message = "Not authorized" ∧
    (parseErrorResponse resp403 "Failed to delete app").statusCode = some 403 ∧
    (parseErrorResponse resp403 "Failed to delete app").code =
      some (.jstr "FORBIDDEN") := by
  have h := non2xx_structured_error cfgBoth "app1" "q" none .blob .vprivate none
    resp403 "Failed to delete app" (by decide)
  obtain ⟨-, -, -, -, -, -, -, hdel, -, hstatus, hmsg, -, -, hcode⟩ := h
  exact ⟨hdel, hmsg _ "Not authorized" rfl rfl, hstatus,
    hcode _ (.jstr "FORBIDDEN") rfl rfl⟩

/-- Evaluation of `getHeaders` at the `x-user-id` key, in every
authentication branch. -/
theorem getHeaders_userId (cfg : ResolvedConfig) :
    getHeaders cfg "x-user-id" = some (getUserIdValue cfg) := by
  unfold getHeaders
  cases hA : truthyStr cfg.apiKey <;> cases hB : truthyStr cfg.token <;>
    simp [hA, hB, hset, emptyHeaders]

/-- Evaluation of `formDataHeaders` at the `x-user-id` key, in every
authentication branch. -/
theorem formDataHeaders_userId (cfg : ResolvedConfig) :
    formDataHeaders cfg "x-user-id" = some (getUserIdValue cfg) := by
  unfold formDataHeaders
  cases hA : truthyStr cfg.apiKey <;> cases hB : truthyStr cfg.token <;>
    simp [hA, hB, hset, emptyHeaders]

/-- **C4 (amended).** Every request carries `x-user-id` equal to
`getUserIdValue`, on both header paths; that value is the accessor's
returned string whenever it returns one — including the empty string —
and is the default `dev` exactly when the accessor is absent or returns
nothing (`undefined`). The original claim fails on an accessor returning
the empty string, because `??` does not replace `""`. -/
theorem user_id_header (c : MarketplaceClientConfig) (opts : RequestOptions)
    (hno : opts.headers = none) :
    buildFinalHeaders (mkClient c) opts "x-user-id" =
      some (getUserIdValue (mkClient c)) ∧
    (c.getUserId = none → getUserIdValue (mkClient c) = "dev") ∧
    (∀ f, c.getUserId = some f → f () = none →
      getUserIdValue (mkClient c) = "dev") ∧
    (∀ f s, c.getUserId = some f → f () = some s →
      getUserIdValue (mkClient c) = s) := by
  refine ⟨?_, ?_, ?_, ?_⟩
  · have hb : buildFinalHeaders (mkClient c) opts =
        if opts.bodyIsFormData then formDataHeaders (mkClient c)
        else getHeaders (mkClient c) := by
      simp [buildFinalHeaders, hno]
    rw [hb]
    cases opts.bodyIsFormData
    · simpa using getHeaders_userId (mkClient c)
    · simpa using formDataHeaders_userId (mkClient c)
  · intro h
    simp [getUserIdValue, mkClient, h]
  · intro f hf hfe
    simp [getUserIdValue, mkClient, hf, hfe]
  · intro f s hf hfs
    simp [getUserIdValue, mkClient, hf, hfs]

/-- Witness for C4: with an accessor returning `"alice"`, the header is
`x-user-id: alice`; with no accessor, the value is `dev`. -/
theorem user_id_header_witness :
    buildFinalHeaders
      (mkClient { baseUrl := "http://localhost:3002"
                  getUserId := some (fun _ => some "alice") }) {} "x-user-id" =
      some (getUserIdValue
        (mkClient { baseUrl := "http://localhost:3002"
                    getUserId := some (fun _ => some "alice") })) ∧
    getUserIdValue
      (mkClient { baseUrl := "http://localhost:3002"
                  getUserId := some (fun _ => some "alice") }) = "alice" ∧
    getUserIdValue (mkClient { baseUrl := "http://localhost:3002" }) = "dev" := by
  refine ⟨(user_id_header _ {} rfl).1, ?_, ?_⟩
  · exact (user_id_header
      { baseUrl := "http://localhost:3002", getUserId := some (fun _ => some "alice") }
      {} rfl).2.2.2 _ "alice" rfl rfl
  · exact (user_id_header { baseUrl := "http://localhost:3002" } {} rfl).2.1 rfl

/-- Counterexample for C4: a configured accessor returning the empty
string yields `x-user-id: ` (empty), not the default identity `dev` —
the claim asserts the header would be `dev`. -/
theorem user_id_header_counterexample :
    buildFinalHeaders
      (mkClient { baseUrl := "http://localhost:3002"
                  getUserId := some (fun _ => some "") }) {} "x-user-id" =
      some "" ∧
    (some "" : Option String) ≠ some "dev" := by
  constructor
  · rfl
  · decide

/-- **C5 (amended).** The query built by `listApps` (and hence by
`searchApps`) carries exactly one `search` parameter when the search
filter is set to a non-empty string and none otherwise, likewise for
`category`; the `visibility` filter never produces a query parameter
(the original claim, that every set filter field including `visibility`
yields a parameter, fails). The spec's concrete example holds: query
`weather` with category `tools` serializes to
`search=weather&category=tools`. -/
theorem listApps_query_params (filters : Option AppFilters) :
    (listAppsParams filters).countP (fun p => p.1 == "search") =
      (if truthyStr (filters.bind AppFilters.search) then 1 else 0) ∧
    (listAppsParams filters).countP (fun p => p.1 == "category") =
      (if truthyStr (filters.bind AppFilters.category) then 1 else 0) ∧
    (listAppsParams filters).countP (fun p => p.1 == "visibility") = 0 ∧
    (∀ s, filters.bind AppFilters.search = some s → s ≠ "" →
      ("search", s) ∈ listAppsParams filters) ∧
    (∀ c, filters.bind AppFilters.category = some c → c ≠ "" →
      ("category", c) ∈ listAppsParams filters) ∧
    (listAppsRequest cfgBoth
        (some { search := some "weather", category := some "tools" })).url =
      "http://localhost:3002/api/apps?search=weather&category=tools" := by
  refine ⟨?_, ?_, ?_, ?_, ?_, ?_⟩
  · cases hs : truthyStr (filters.bind AppFilters.search) <;>
      cases hc : truthyStr (filters.bind AppFilters.category) <;>
        simp [listAppsParams, hs, hc]
  · cases hs : truthyStr (filters.bind AppFilters.search) <;>
      cases hc : truthyStr (filters.bind AppFilters.category) <;>
        simp [listAppsParams, hs, hc]
  · cases hs : truthyStr (filters.bind AppFilters.search) <;>
      cases hc : truthyStr (filters.bind AppFilters.category) <;>
        simp [listAppsParams, hs, hc]
  · intro s hs hne
    have hsE : s.isEmpty = false := by
      simp [Bool.eq_false_iff, String.isEmpty_iff, hne]
    have hts : truthyStr (some s) = true := by simp [truthyStr, hsE]
    have ht : truthyStr (filters.bind AppFilters.search) = true := by
      rw [hs]; exact hts
    cases hc : truthyStr (filters.bind AppFilters.category) <;>
      simp [listAppsParams, ht, hts, hs, hc]
  · intro c hc hne
    have hcE : c.isEmpty = false := by
      simp [Bool.eq_false_iff, String.isEmpty_iff, hne]
    have htc : truthyStr (some c) = true := by simp [truthyStr, hcE]
    have ht : truthyStr (filters.bind AppFilters.category) = true := by
      rw [hc]; exact htc
    cases hs : truthyStr (filters.bind AppFilters.search) <;>
      simp [listAppsParams, ht, htc, hc, hs]
  · rfl

/-- Witness for C5: with search `weather` and category `tools` both set,
each of the two parameters appears exactly once. -/
theorem listApps_query_params_witness :
    (listAppsParams (some { search := some "weather", category := some "tools" })).countP
      (fun p => p.1 == "search") = 1 ∧
    ("search", "weather") ∈
      listAppsParams (some { search := some "weather", category := some "tools" }) ∧
    ("category", "tools") ∈
      listAppsParams (some { search := some "weather", category := some "tools" }) := by
  have h := listApps_query_params
    (some { search := some "weather", category := some "tools" })
  exact ⟨by simpa using h.1,
    h.2.2.2.1 "weather" rfl (by decide),
    h.2.2.2.2.1 "tools" rfl (by decide)⟩

/-- Counterexample for C5: a filter with only `visibility` set produces
no query parameter at all — in particular not the one `visibility`
parameter the claim requires. -/
theorem listApps_visibility_param_counterexample :
    listAppsParams
      (some { search := none, category := none, visibility := some .vprivate }) =
        [] ∧
    (listAppsParams
      (some { search := none, category := none, visibility := some .vprivate })).countP
        (fun p => p.1 == "visibility") ≠ 1 := by
  constructor
  · rfl
  · decide

/-- **C6 (amended).** On a 2xx response to `listApps` whose body is a
JSON object, the result is the sequence stored under `apps` when that
field holds a sequence, and the empty sequence when the field is absent
or null. The original claim fails when the 2xx body is JSON `null`: the
call then throws a `TypeError` instead of resolving empty. -/
theorem listApps_success_shape (cfg : ResolvedConfig) (filters : Option AppFilters)
    (resp : HttpResponse) (hok : respOk resp = true) :
    (∀ fields xs, resp.body = some (.jobj fields) →
      jobjGet fields "apps" = some (.jarr xs) →
      runListApps cfg filters (.ok resp) = .success (.jarr xs)) ∧
    (∀ fields, resp.body = some (.jobj fields) →
      jobjGet fields "apps" = none →
      runListApps cfg filters (.ok resp) = .success (.jarr [])) ∧
    (∀ fields, resp.body = some (.jobj fields) →
      jobjGet fields "apps" = some .jnull →
      runListApps cfg filters (.ok resp) = .success (.jarr [])) := by
  refine ⟨?_, ?_, ?_⟩
  · intro fields xs hb hget
    simp [runListApps, fetchWithTimeout, hok, hb, jsProp, hget, nullishGetD]
  · intro fields hb hget
    simp [runListApps, fetchWithTimeout, hok, hb, jsProp, hget, nullishGetD]
  · intro fields hb hget
    simp [runListApps, fetchWithTimeout, hok, hb, jsProp, hget, nullishGetD]

/-- Witness for C6: a 2xx body `{"apps": [A, B]}` yields exactly that
sequence, and `{}` yields the empty sequence. -/
theorem listApps_success_shape_witness :
    runListApps cfgBoth none
      (.ok { status := 200,
             body := some (.jobj [("apps", .jarr [.jstr "A", .jstr "B"])]) }) =
      .success (.jarr [.jstr "A", .jstr "B"]) ∧
    runListApps cfgBoth none (.ok { status := 200, body := some (.jobj []) }) =
      .success (.jarr []) := by
  constructor
  · exact (listApps_success_shape cfgBoth none _ (by decide)).1
      [("apps", .jarr [.jstr "A", .jstr "B"])] [.jstr "A", .jstr "B"] rfl rfl
  · exact (listApps_success_shape cfgBoth none _ (by decide)).2.1 [] rfl rfl

/-- Counterexample for C6: a 2xx response whose body is JSON `null` has
no `apps` field, yet the call throws a `TypeError` (property access on
`null`) instead of resolving with the empty sequence. -/
theorem listApps_null_body_counterexample :
    runListApps cfgBoth none (.ok { status := 200, body := some .jnull }) =
      .jsError "TypeError" ∧
    (OpResult.jsError "TypeError" : OpResult JValue) ≠ .success (.jarr []) := by
  refine ⟨rfl, fun h => ?_⟩
  cases h

/-- **C7.** `searchApps query filters` behaves exactly as `listApps`
applied to the filters with the query merged in as the `search` field
(the explicit query replacing any search value already present), for
every transport outcome, and it issues the identical outbound request. -/
theorem searchApps_is_listApps_merged (cfg : ResolvedConfig) (query : String)
    (filters : Option AppFilters) (outcome : FetchOutcome) :
    runSearchApps cfg query filters outcome =
      runListApps cfg
        (some { search := some query
                category := filters.bind AppFilters.category
                visibility := filters.bind AppFilters.visibility }) outcome ∧
    searchAppsRequest cfg query filters =
      listAppsRequest cfg
        (some { search := some query
                category := filters.bind AppFilters.category
                visibility := filters.bind AppFilters.visibility }) ∧
    (∀ f, spreadWithSearch (some f) query = { f with search := some query }) :=
  ⟨rfl, rfl, fun _ => rfl⟩

/-- **C8.** Every operation interpolating an app identifier or version
into a path or query does so through `encodeURIComponent`, so the
outbound URL carries the percent-encoding of the identifier; reserved
characters in an identifier reach the wire percent-encoded. -/
theorem interpolated_ids_percent_encoded (cfg : ResolvedConfig)
    (appId version : String) :
    (getAppRequest cfg appId).url =
      cfg.baseUrl ++ "/api/apps/" ++ encodeURIComponent appId ∧
    (downloadAppRequest cfg appId (some version)).url =
      cfg.baseUrl ++ "/api/apps/" ++ encodeURIComponent appId ++
        "/download?version=" ++ encodeURIComponent version ∧
    (downloadAppRequest cfg appId none).url =
      cfg.baseUrl ++ "/api/apps/" ++ encodeURIComponent appId ++ "/download" ∧
    (getAppManifestRequest cfg appId).url =
      cfg.baseUrl ++ "/api/apps/" ++ encodeURIComponent appId ++ "/manifest" ∧
    (getAppHealthRequest cfg appId).url =
      cfg.baseUrl ++ "/api/apps/" ++ encodeURIComponent appId ++ "/health" ∧
    (deleteAppRequest cfg appId).url =
      cfg.baseUrl ++ "/api/apps/" ++ encodeURIComponent appId ∧
    (addAppToAccountRequest cfg appId).url =
      cfg.baseUrl ++ "/api/apps/" ++ encodeURIComponent appId ++ "/add-to-account" ∧
    encodeURIComponent "a/b c?d&e=f" = "a%2Fb%20c%3Fd%26e%3Df" :=
  ⟨rfl, rfl, rfl, rfl, rfl, rfl, rfl, rfl⟩

/-- Evaluation of `formDataHeaders` at the `Content-Type` key: never
set, in every authentication branch. -/
theorem formDataHeaders_contentType (cfg : ResolvedConfig) :
    formDataHeaders cfg "Content-Type" = none := by
  unfold formDataHeaders
  cases hA : truthyStr cfg.apiKey <;> cases hB : truthyStr cfg.token <;>
    simp [hA, hB, hset, emptyHeaders]

/-- Evaluation of `getHeaders` at the `Content-Type` key: always the
JSON content type, in every authentication branch. -/
theorem getHeaders_contentType (cfg : ResolvedConfig) :
    getHeaders cfg "Content-Type" = some "application/json" := by
  unfold getHeaders
  cases hA : truthyStr cfg.apiKey <;> cases hB : truthyStr cfg.token <;>
    simp [hA, hB, hset, emptyHeaders]

/-- **C9.** An upload request (multipart form body) never carries a
`Content-Type` header, while every other operation's request carries
`Content-Type: application/json` by default. -/
theorem upload_no_json_content_type (cfg : ResolvedConfig) (file : UploadFile)
    (vis : Visibility) (appId query : String) (version : Option String)
    (filters : Option AppFilters) :
    (uploadAppRequest cfg file vis).headers "Content-Type" = none ∧
    (uploadAppRequest cfg file vis).body =
      .formData [("package", uploadFileName file), ("visibility", vis.str)] ∧
    (listAppsRequest cfg filters).headers "Content-Type" =
      some "application/json" ∧
    (searchAppsRequest cfg query filters).headers "Content-Type" =
      some "application/json" ∧
    (getAppRequest cfg appId).headers "Content-Type" = some "application/json" ∧
    (downloadAppRequest cfg appId version).headers "Content-Type" =
      some "application/json" ∧
    (getAppManifestRequest cfg appId).headers "Content-Type" =
      some "application/json" ∧
    (getAppHealthRequest cfg appId).headers "Content-Type" =
      some "application/json" ∧
    (deleteAppRequest cfg appId).headers "Content-Type" =
      some "application/json" ∧
    (addAppToAccountRequest cfg appId).headers "Content-Type" =
      some "application/json" := by
  refine ⟨?_, rfl, ?_, ?_, ?_, ?_, ?_, ?_, ?_, ?_⟩
  · simpa [uploadAppRequest, buildFinalHeaders] using formDataHeaders_contentType cfg
  · simpa [listAppsRequest, buildFinalHeaders] using getHeaders_contentType cfg
  · simpa [searchAppsRequest, listAppsRequest, buildFinalHeaders] using
      getHeaders_contentType cfg
  · simpa [getAppRequest, buildFinalHeaders] using getHeaders_contentType cfg
  · cases version <;>
      simpa [downloadAppRequest, buildFinalHeaders] using getHeaders_contentType cfg
  · simpa [getAppManifestRequest, buildFinalHeaders] using getHeaders_contentType cfg
  · simpa [getAppHealthRequest, buildFinalHeaders] using getHeaders_contentType cfg
  · simpa [deleteAppRequest, buildFinalHeaders] using getHeaders_contentType cfg
  · simpa [addAppToAccountRequest, buildFinalHeaders] using getHeaders_contentType cfg

/-- **C10 (amended).** On a 2xx response whose body is a JSON object
lacking the expected wrapping field, `getApp` and `uploadApp` resolve
with the absent value (`undefined`), and `getAppManifest` likewise for a
missing `manifest` field — no default and no failure. The original
claim fails when the 2xx body is JSON `null`: the call then throws a
`TypeError` instead of resolving. -/
theorem missing_wrapper_resolves_undefined (cfg : ResolvedConfig)
    (appId : String) (file : UploadFile) (vis : Visibility)
    (resp : HttpResponse) (hok : respOk resp = true) :
    (∀ fields, resp.body = some (.jobj fields) →
      jobjGet fields "app" = none →
      runGetApp cfg appId (.ok resp) = .success none ∧
      runUploadApp cfg file vis (.ok resp) = .success none) ∧
    (∀ fields, resp.body = some (.jobj fields) →
      jobjGet fields "manifest" = none →
      runGetAppManifest cfg appId (.ok resp) = .success none) := by
  constructor
  · intro fields hb hget
    constructor
    · simp [runGetApp, fetchWithTimeout, hok, hb, jsProp, hget]
    · simp [runUploadApp, fetchWithTimeout, hok, hb, jsProp, hget]
  · intro fields hb hget
    simp [runGetAppManifest, fetchWithTimeout, hok, hb, jsProp, hget]

/-- Witness for C10: a 2xx response with body `{}` makes `getApp`,
`uploadApp` and `getAppManifest` resolve with the absent value. -/
theorem missing_wrapper_resolves_undefined_witness :
    runGetApp cfgBoth "a1" (.ok { status := 200, body := some (.jobj []) }) =
      .success none ∧
    runUploadApp cfgBoth .blob .vglobal
      (.ok { status := 200, body := some (.jobj []) }) = .success none ∧
    runGetAppManifest cfgBoth "a1"
      (.ok { status := 200, body := some (.jobj []) }) = .success none := by
  have h := missing_wrapper_resolves_undefined cfgBoth "a1" .blob .vglobal
    { status := 200, body := some (.jobj []) } (by decide)
  exact ⟨(h.1 [] rfl rfl).1, (h.1 [] rfl rfl).2, h.2 [] rfl rfl⟩

/-- Counterexample for C10: a 2xx response to `getApp` whose body is
JSON `null` lacks the `app` field, yet the call throws a `TypeError`
instead of resolving with an absent value. -/
theorem getApp_null_body_counterexample :
    runGetApp cfgBoth "a1" (.ok { status := 200, body := some .jnull }) =
      .jsError "TypeError" ∧
    (OpResult.jsError "TypeError" : OpResult (Option JValue)) ≠ .success none := by
  refine ⟨rfl, fun h => ?_⟩
  cases h

end Marketplace
